import Mathlib

/-!
Shallow embedding of the Task Query & Mutation Engine of the
BUGUARD task-management service.

The embedding translates:
  - app/models/enums.py        (TaskStatus, TaskPriority, sort_value)
  - app/models/schemas.py      (TaskCreate, TaskUpdate, SortField, SortOrder)
  - app/validation/validators.py (TaskValidator)
  - app/services/task_service.py (TaskService)
  - app/controllers/task_controller.py (query-parameter bounds)
  - app/core/config.py         (pagination settings)

Timestamps are modelled as natural numbers; the task store (the SQL
table) is modelled as a list of task records in insertion order.  A
raised HTTPException / ValueError is modelled as an `Except.error`
result; the surrounding transaction is rolled back, so an error leaves
the store unchanged (the run* wrappers make this explicit).
-/

/-- TaskStatus enumeration (app/models/enums.py). -/
inductive TaskStatus where
  | pending
  | in_progress
  | completed
  | cancelled
deriving DecidableEq, BEq, Repr

/-- The string value each status variant stores in the database column. -/
def TaskStatus.toStr : TaskStatus → String
  | .pending => "pending"
  | .in_progress => "in_progress"
  | .completed => "completed"
  | .cancelled => "cancelled"

/-- TaskPriority enumeration (app/models/enums.py). -/
inductive TaskPriority where
  | low
  | medium
  | high
  | urgent
deriving DecidableEq, BEq, Repr

/-- The string value each priority variant stores in the database column. -/
def TaskPriority.toStr : TaskPriority → String
  | .low => "low"
  | .medium => "medium"
  | .high => "high"
  | .urgent => "urgent"

/-- TaskPriority.sort_value (app/models/enums.py): numeric rank used for
ordering.  The Python dict lookup has default 0, unreachable for the four
variants. -/
def TaskPriority.sort_value : TaskPriority → Nat
  | .low => 1
  | .medium => 2
  | .high => 3
  | .urgent => 4

/-- Drop leading whitespace characters from a character list. -/
def dropWs : List Char → List Char
  | [] => []
  | c :: cs => if c.isWhitespace then dropWs cs else c :: cs

/-- Python str.strip(): remove leading and trailing whitespace. -/
def pyStrip (s : String) : String :=
  ⟨(dropWs (dropWs s.data.reverse).reverse)⟩

/-- Python str.lower() (ASCII case folding suffices for this model). -/
def pyLower (s : String) : String :=
  ⟨s.data.map Char.toLower⟩

deriving instance DecidableEq for Except

/-- Errors raised by the service layer: HTTPException 404 (not found, with
the missing ids when the handler lists them), HTTPException 400 for a bad
status transition (bulk names the offending task id) or an empty bulk
payload, and ValueError from a field validator (InvalidInput). -/
inductive SvcError where
  | invalidInput (msg : String)
  | notFound (missingIds : List Nat)
  | noUpdateData
  | invalidTransition (current next : TaskStatus) (taskId : Option Nat)
deriving DecidableEq, Repr

/-- TaskValidator.validate_title (app/validation/validators.py). -/
def validate_title (title : String) : Except SvcError String :=
  if pyStrip title = "" then
    .error (.invalidInput "Title cannot be empty or whitespace only")
  else
    let sanitized_title := pyStrip title
    if sanitized_title.length > 200 then
      .error (.invalidInput "Title cannot exceed 200 characters")
    else
      .ok sanitized_title

/-- TaskValidator.validate_description (app/validation/validators.py).
The final line of the Python is
`return description.strip() if description else None`,
where the empty string is falsy. -/
def validate_description : Option String → Except SvcError (Option String)
  | none => .ok none
  | some description =>
    if description.length > 1000 then
      .error (.invalidInput "Description cannot exceed 1000 characters")
    else
      .ok (if description = "" then none else some (pyStrip description))

/-- TaskValidator.validate_due_date (app/validation/validators.py).
`now` is the value of datetime.utcnow() at validation time. -/
def validate_due_date (due_date : Option Nat) (now : Nat) : Except SvcError (Option Nat) :=
  match due_date with
  | none => .ok none
  | some d =>
    if d ≤ now then
      .error (.invalidInput "Due date must be in the future")
    else
      .ok (some d)

/-- TaskValidator.validate_assigned_to (app/validation/validators.py). -/
def validate_assigned_to : Option String → Except SvcError (Option String)
  | none => .ok none
  | some assigned_to =>
    let sanitized := pyStrip assigned_to
    if sanitized.length > 100 then
      .error (.invalidInput "Assignee name cannot exceed 100 characters")
    else
      .ok (if sanitized = "" then none else some sanitized)

/-- TaskValidator.validate_priority (app/validation/validators.py): the
membership test `priority not in TaskPriority` never fails for a typed
enum value, so every variant is returned unchanged. -/
def validate_priority (priority : TaskPriority) : Except SvcError TaskPriority :=
  .ok priority

/-- TaskValidator.validate_status_transition (app/validation/validators.py):
the fixed adjacency table of allowed status transitions. -/
def validate_status_transition (current_status new_status : TaskStatus) : Bool :=
  let valid_transitions : List TaskStatus :=
    match current_status with
    | .pending => [.in_progress, .cancelled]
    | .in_progress => [.completed, .cancelled, .pending]
    | .completed => [.in_progress]
    | .cancelled => [.pending, .in_progress]
  valid_transitions.contains new_status

/-- The eight directed edges the specification lists for the status state
machine (section 4.2). -/
def allowedTransitions : List (TaskStatus × TaskStatus) :=
  [(.pending, .in_progress), (.pending, .cancelled),
   (.in_progress, .completed), (.in_progress, .cancelled), (.in_progress, .pending),
   (.completed, .in_progress),
   (.cancelled, .pending), (.cancelled, .in_progress)]

/-- C1: validate_status_transition returns true exactly on the eight pairs
of the fixed transition table, and in particular rejects every
self-transition. -/
theorem c1_status_transition_table :
    (∀ c n : TaskStatus, validate_status_transition c n = true ↔ (c, n) ∈ allowedTransitions) ∧
    (∀ s : TaskStatus, validate_status_transition s s = false) := by
  constructor
  · intro c n
    cases c <;> cases n <;> simp [validate_status_transition, allowedTransitions] <;> decide
  · intro s
    cases s <;> decide

/-- C7 counterexample: on the empty-string description the code returns
None (the Python conditional treats "" as falsy), not the empty string
the claim requires. -/
theorem c7_empty_description_counterexample :
    validate_description (some "") = Except.ok none ∧
    validate_description (some "") ≠ Except.ok (some "") := by
  constructor
  · decide
  · decide

/-- C7 (amended): validate_description passes None through, fails with
InvalidInput for length > 1000, normalizes the empty-string input to None,
and returns every other input stripped (so a whitespace-only nonempty
input is returned as the empty string). -/
theorem c7_description_validation :
    validate_description none = Except.ok none ∧
    (∀ s : String, s.length > 1000 →
      validate_description (some s) =
        Except.error (.invalidInput "Description cannot exceed 1000 characters")) ∧
    validate_description (some "") = Except.ok none ∧
    (∀ s : String, s.length ≤ 1000 → s ≠ "" →
      validate_description (some s) = Except.ok (some (pyStrip s))) := by
  refine ⟨rfl, ?_, by decide, ?_⟩
  · intro s hlen
    simp only [validate_description]
    rw [if_pos hlen]
  · intro s hlen hne
    simp only [validate_description]
    rw [if_neg (by omega : ¬ s.length > 1000), if_neg hne]

/-- C7 witness: the whitespace-only input "  " (length 2, nonempty) is
returned stripped, i.e. as the empty string. -/
theorem c7_description_validation_witness :
    validate_description (some "  ") = Except.ok (some "") := by
  have h := c7_description_validation.2.2.2 "  " (by decide) (by decide)
  simpa using h

/-- The persisted task record (app/models/database.py).  Timestamps are
naturals; id is assigned by the store. -/
structure TaskRecord where
  id : Nat
  title : String
  description : Option String
  status : TaskStatus
  priority : TaskPriority
  created_at : Nat
  updated_at : Option Nat
  due_date : Option Nat
  assigned_to : Option String
deriving DecidableEq, Repr

/-- TaskCreate (app/models/schemas.py): the create payload after pydantic
parsing, with the schema defaults. -/
structure TaskCreate where
  title : String
  description : Option String := none
  status : TaskStatus := .pending
  priority : TaskPriority := .medium
  due_date : Option Nat := none
  assigned_to : Option String := none
deriving DecidableEq, Repr

/-- TaskUpdate (app/models/schemas.py): a partial-update payload.  The
outer Option models pydantic field presence (exclude_unset); the inner
Option of a nullable column models an explicit null. -/
structure TaskUpdate where
  title : Option String := none
  description : Option (Option String) := none
  status : Option TaskStatus := none
  priority : Option TaskPriority := none
  due_date : Option (Option Nat) := none
  assigned_to : Option (Option String) := none
deriving DecidableEq, Repr

/-- `model_dump(exclude_unset=True)` yields an empty dict exactly when no
field of the payload is set. -/
def TaskUpdate.isEmpty (u : TaskUpdate) : Bool :=
  u.title.isNone && u.description.isNone && u.status.isNone &&
    u.priority.isNone && u.due_date.isNone && u.assigned_to.isNone

/-- SortOrder enumeration (app/models/schemas.py). -/
inductive SortOrder where
  | asc
  | desc
deriving DecidableEq, BEq, Repr

/-- SortField enumeration (app/models/schemas.py). -/
inductive SortField where
  | id
  | title
  | status
  | priority
  | created_at
  | updated_at
  | due_date
  | assigned_to
deriving DecidableEq, BEq, Repr

/-- needle occurs at the head of hay. -/
def startsWithChars : List Char → List Char → Bool
  | [], _ => true
  | _ :: _, [] => false
  | a :: as, b :: bs => a == b && startsWithChars as bs

/-- needle occurs somewhere inside hay (SQL LIKE with wildcards on both
sides). -/
def containsChars (needle : List Char) : List Char → Bool
  | [] => needle.isEmpty
  | b :: bs => startsWithChars needle (b :: bs) || containsChars needle bs

/-- `func.lower(column).contains(search_lower)`: case-insensitive
substring test used by the search filter. -/
def lowerContains (hay search_lower : String) : Bool :=
  containsChars search_lower.data (pyLower hay).data

/-- The conjunction of WHERE clauses built in TaskService.get_tasks.  A
filter argument that is absent, or a falsy empty string, adds no clause;
search matches lower(title) or lower(description), and a NULL description
never matches (SQL three-valued logic). -/
def taskMatches (status : Option TaskStatus) (priority : Option TaskPriority)
    (assigned_to : Option String) (search : Option String) (t : TaskRecord) : Bool :=
  (match status with
    | none => true
    | some s => t.status == s) &&
  (match priority with
    | none => true
    | some p => t.priority == p) &&
  (match assigned_to with
    | none => true
    | some a => if a = "" then true else t.assigned_to == some a) &&
  (match search with
    | none => true
    | some s =>
      if s = "" then true
      else
        lowerContains t.title (pyLower s) ||
          (match t.description with
            | some d => lowerContains d (pyLower s)
            | none => false))

/-- The CASE expression TaskService.get_tasks builds for priority sorting
(low=1, medium=2, high=3, urgent=4; the else_=0 branch is unreachable
because the four WHEN clauses cover every variant). -/
def priorityCaseVal : TaskPriority → Nat
  | .low => 1
  | .medium => 2
  | .high => 3
  | .urgent => 4

/-- SQLite ordering on a nullable integer column: NULLs sort first in
ascending order. -/
def optNatLe : Option Nat → Option Nat → Prop
  | none, _ => True
  | some _, none => False
  | some a, some b => a ≤ b

instance : DecidableRel optNatLe := fun a b =>
  match a, b with
  | none, _ => isTrue trivial
  | some _, none => isFalse id
  | some a, some b => inferInstanceAs (Decidable (a ≤ b))

/-- SQLite ordering on a nullable string column: NULLs sort first in
ascending order. -/
def optStrLe : Option String → Option String → Prop
  | none, _ => True
  | some _, none => False
  | some a, some b => a ≤ b

instance : DecidableRel optStrLe := fun a b =>
  match a, b with
  | none, _ => isTrue trivial
  | some _, none => isFalse id
  | some a, some b => inferInstanceAs (Decidable (a ≤ b))

/-- The ascending ORDER BY key comparison for each sortable column
(TaskService.get_tasks): the priority column sorts by the numeric CASE
expression, enum columns by their stored string value, other columns by
their natural order with SQLite NULLS FIRST. -/
def fieldLe : SortField → TaskRecord → TaskRecord → Prop
  | .id, a, b => a.id ≤ b.id
  | .title, a, b => a.title ≤ b.title
  | .status, a, b => a.status.toStr ≤ b.status.toStr
  | .priority, a, b => priorityCaseVal a.priority ≤ priorityCaseVal b.priority
  | .created_at, a, b => a.created_at ≤ b.created_at
  | .updated_at, a, b => optNatLe a.updated_at b.updated_at
  | .due_date, a, b => optNatLe a.due_date b.due_date
  | .assigned_to, a, b => optStrLe a.assigned_to b.assigned_to

/-- The descending ORDER BY comparison: the flip of the ascending one. -/
def fieldGe (f : SortField) (a b : TaskRecord) : Prop := fieldLe f b a

instance (f : SortField) : DecidableRel (fieldLe f) := fun a b =>
  match f with
  | .id => inferInstanceAs (Decidable (a.id ≤ b.id))
  | .title => inferInstanceAs (Decidable (a.title ≤ b.title))
  | .status => inferInstanceAs (Decidable (a.status.toStr ≤ b.status.toStr))
  | .priority => inferInstanceAs (Decidable (priorityCaseVal a.priority ≤ priorityCaseVal b.priority))
  | .created_at => inferInstanceAs (Decidable (a.created_at ≤ b.created_at))
  | .updated_at => inferInstanceAs (Decidable (optNatLe a.updated_at b.updated_at))
  | .due_date => inferInstanceAs (Decidable (optNatLe a.due_date b.due_date))
  | .assigned_to => inferInstanceAs (Decidable (optStrLe a.assigned_to b.assigned_to))

instance (f : SortField) : DecidableRel (fieldGe f) := fun a b =>
  inferInstanceAs (Decidable (fieldLe f b a))

theorem optNatLe_total (a b : Option Nat) : optNatLe a b ∨ optNatLe b a := by
  cases a <;> cases b <;> simp [optNatLe] <;> exact Nat.le_total _ _

theorem optNatLe_trans {a b c : Option Nat} :
    optNatLe a b → optNatLe b c → optNatLe a c := by
  cases a <;> cases b <;> cases c <;> simp [optNatLe] <;> omega

theorem optStrLe_total (a b : Option String) : optStrLe a b ∨ optStrLe b a := by
  cases a <;> cases b <;> simp [optStrLe] <;> exact le_total _ _

theorem optStrLe_trans {a b c : Option String} :
    optStrLe a b → optStrLe b c → optStrLe a c := by
  cases a <;> cases b <;> cases c <;> simp [optStrLe] <;> exact le_trans

instance (f : SortField) : IsTotal TaskRecord (fieldLe f) := by
  constructor
  intro a b
  cases f <;> simp only [fieldLe]
  · exact Nat.le_total _ _
  · exact le_total _ _
  · exact le_total _ _
  · exact Nat.le_total _ _
  · exact Nat.le_total _ _
  · exact optNatLe_total _ _
  · exact optNatLe_total _ _
  · exact optStrLe_total _ _

instance (f : SortField) : IsTrans TaskRecord (fieldLe f) := by
  constructor
  intro a b c
  cases f <;> simp only [fieldLe]
  · omega
  · exact le_trans
  · exact le_trans
  · omega
  · omega
  · exact optNatLe_trans
  · exact optNatLe_trans
  · exact optStrLe_trans

instance (f : SortField) : IsTotal TaskRecord (fieldGe f) := by
  constructor
  intro a b
  show fieldLe f b a ∨ fieldLe f a b
  exact total_of (fieldLe f) b a

instance (f : SortField) : IsTrans TaskRecord (fieldGe f) := by
  constructor
  intro a b c hab hbc
  exact trans_of (fieldLe f) hbc hab

/-- The ORDER BY step of TaskService.get_tasks: an explicit sort field
sorts ascending unless sort_order == desc; no sort field defaults to
created_at descending.  List.insertionSort is stable, matching the
deterministic tie order of the backing store. -/
def sortTasks (sort_by : Option SortField) (sort_order : Option SortOrder)
    (l : List TaskRecord) : List TaskRecord :=
  match sort_by with
  | some f =>
    if sort_order = some SortOrder.desc then
      List.insertionSort (fieldGe f) l
    else
      List.insertionSort (fieldLe f) l
  | none => List.insertionSort (fieldGe .created_at) l

/-- TaskService.get_tasks: filter, sort, then paginate; the count query
applies the same filters and no pagination. -/
def get_tasks (store : List TaskRecord) (skip limit : Nat)
    (status : Option TaskStatus) (priority : Option TaskPriority)
    (assigned_to : Option String) (search : Option String)
    (sort_by : Option SortField) (sort_order : Option SortOrder) :
    List TaskRecord × Nat :=
  let filtered := store.filter (taskMatches status priority assigned_to search)
  let sorted := sortTasks sort_by sort_order filtered
  let items := (sorted.drop skip).take limit
  let total := (store.filter (taskMatches status priority assigned_to search)).length
  (items, total)

/-- Settings.max_page_size (app/core/config.py). -/
def settings_max_page_size : Nat := 1000

/-- Settings.default_page_size (app/core/config.py). -/
def settings_default_page_size : Nat := 100

/-- GET /tasks (app/controllers/task_controller.py): FastAPI rejects the
request with a validation error unless skip ≥ 0 and 1 ≤ limit ≤
settings.max_page_size; otherwise it calls TaskService.get_tasks. -/
def controller_get_tasks (store : List TaskRecord) (skip limit : Int)
    (status : Option TaskStatus) (priority : Option TaskPriority)
    (assigned_to : Option String) (search : Option String)
    (sort_by : Option SortField) (sort_order : Option SortOrder) :
    Except String (List TaskRecord × Nat) :=
  if skip < 0 then
    .error "Input should be greater than or equal to 0"
  else if limit < 1 then
    .error "Input should be greater than or equal to 1"
  else if limit > (settings_max_page_size : Int) then
    .error "Input should be less than or equal to 1000"
  else
    .ok (get_tasks store skip.toNat limit.toNat status priority
          assigned_to search sort_by sort_order)

/-- The per-field validation block of TaskService.update_task /
bulk_update_tasks, in source order (title, description, due_date,
assigned_to, priority); a ValueError aborts the whole operation.  The
status value itself is not rewritten here. -/
def validateUpdateData (u : TaskUpdate) (now : Nat) : Except SvcError TaskUpdate := do
  let title ← match u.title with
    | none => pure none
    | some x => do pure (some (← validate_title x))
  let desc ← match u.description with
    | none => pure none
    | some d => do pure (some (← validate_description d))
  let due ← match u.due_date with
    | none => pure none
    | some d => do pure (some (← validate_due_date d now))
  let asg ← match u.assigned_to with
    | none => pure none
    | some a => do pure (some (← validate_assigned_to a))
  let prio ← match u.priority with
    | none => pure none
    | some p => do pure (some (← validate_priority p))
  pure { title := title, description := desc, due_date := due,
         assigned_to := asg, priority := prio, status := u.status }

/-- The setattr loop plus the updated_at stamp: every field present in the
validated payload overwrites the stored one, and updated_at is set to
now. -/
def applyUpdate (t : TaskRecord) (v : TaskUpdate) (now : Nat) : TaskRecord :=
  { t with
    title := v.title.getD t.title
    description := v.description.getD t.description
    status := v.status.getD t.status
    priority := v.priority.getD t.priority
    due_date := v.due_date.getD t.due_date
    assigned_to := v.assigned_to.getD t.assigned_to
    updated_at := some now }

/-- session.get(Task, task_id): primary-key lookup. -/
def findTask (store : List TaskRecord) (task_id : Nat) : Option TaskRecord :=
  store.find? (fun t => t.id == task_id)

/-- TaskService.update_task: 404 if the id is unknown, validate the present
fields, check the status transition when status is present, then apply the
payload and stamp updated_at. -/
def update_task (store : List TaskRecord) (task_id : Nat) (u : TaskUpdate)
    (now : Nat) : Except SvcError (List TaskRecord × TaskRecord) := do
  match findTask store task_id with
  | none => .error (.notFound [])
  | some db_task => do
    let v ← validateUpdateData u now
    match v.status with
    | some new_status =>
      if validate_status_transition db_task.status new_status then
        let t := applyUpdate db_task v now
        pure (store.map fun x => if x.id == task_id then t else x, t)
      else
        .error (.invalidTransition db_task.status new_status none)
    | none =>
      let t := applyUpdate db_task v now
      pure (store.map fun x => if x.id == task_id then t else x, t)

/-- The committed store after a single update: an error rolls the
transaction back, leaving the store unchanged. -/
def runUpdateTask (store : List TaskRecord) (task_id : Nat) (u : TaskUpdate)
    (now : Nat) : List TaskRecord :=
  match update_task store task_id u now with
  | .ok (s, _) => s
  | .error _ => store

/-- The SELECT ... WHERE id IN (task_ids) step of the bulk operations. -/
def bulkExisting (store : List TaskRecord) (task_ids : List Nat) : List TaskRecord :=
  store.filter (fun t => task_ids.contains t.id)

/-- The requested ids that matched no row, in request order. -/
def bulkMissing (store : List TaskRecord) (task_ids : List Nat) : List Nat :=
  let existing_ids := (bulkExisting store task_ids).map (fun t => t.id)
  task_ids.filter (fun i => !existing_ids.contains i)

/-- TaskService.bulk_update_tasks: 404 listing the missing ids if any id
is unknown; 400 on an empty payload; validate the fields; if status is
present, every target must allow the transition (the first offender is
named); then every target receives the same values and timestamp. -/
def bulk_update_tasks (store : List TaskRecord) (task_ids : List Nat)
    (u : TaskUpdate) (now : Nat) :
    Except SvcError (List TaskRecord × Nat × List Nat) := do
  let existing := bulkExisting store task_ids
  let existing_ids := existing.map (fun t => t.id)
  let missing := bulkMissing store task_ids
  if !missing.isEmpty then
    .error (.notFound missing)
  else if u.isEmpty then
    .error .noUpdateData
  else do
    let v ← validateUpdateData u now
    match v.status with
    | some new_status =>
      match existing.find? (fun t => !validate_status_transition t.status new_status) with
      | some t => .error (.invalidTransition t.status new_status (some t.id))
      | none =>
        pure (store.map (fun t => if task_ids.contains t.id then applyUpdate t v now else t),
              existing.length, existing_ids)
    | none =>
      pure (store.map (fun t => if task_ids.contains t.id then applyUpdate t v now else t),
            existing.length, existing_ids)

/-- The committed store after a bulk update: an error rolls the
transaction back, leaving the store unchanged. -/
def runBulkUpdate (store : List TaskRecord) (task_ids : List Nat)
    (u : TaskUpdate) (now : Nat) : List TaskRecord :=
  match bulk_update_tasks store task_ids u now with
  | .ok (s, _, _) => s
  | .error _ => store

/-- TaskService.bulk_delete_tasks: 404 only when no requested id exists;
otherwise every existing target row is deleted and the count and ids of
the deleted rows are returned. -/
def bulk_delete_tasks (store : List TaskRecord) (task_ids : List Nat) :
    Except SvcError (List TaskRecord × Nat × List Nat) :=
  let existing := bulkExisting store task_ids
  let existing_ids := existing.map (fun t => t.id)
  if existing_ids.isEmpty then
    .error (.notFound [])
  else
    .ok (store.filter (fun t => !existing_ids.contains t.id),
         existing.length, existing_ids)

/-- Autoincrement primary key for the next inserted row. -/
def nextId (store : List TaskRecord) : Nat :=
  store.foldr (fun t m => max t.id m) 0 + 1

/-- TaskService.create_task: validate every field (in the order the
validated_data dict is built), persist a new row with created_at = now and
updated_at = None, and return it.  The status field is taken verbatim from
the payload; no transition check is applied. -/
def create_task (store : List TaskRecord) (task_data : TaskCreate) (now : Nat) :
    Except SvcError (List TaskRecord × TaskRecord) := do
  let title ← validate_title task_data.title
  let desc ← validate_description task_data.description
  let status := task_data.status
  let prio ← validate_priority task_data.priority
  let due ← validate_due_date task_data.due_date now
  let asg ← validate_assigned_to task_data.assigned_to
  let t : TaskRecord :=
    { id := nextId store, title := title, description := desc, status := status,
      priority := prio, created_at := now, updated_at := none,
      due_date := due, assigned_to := asg }
  pure (store ++ [t], t)

/-- The iteration order of `for status in TaskStatus`. -/
def allStatuses : List TaskStatus := [.pending, .in_progress, .completed, .cancelled]

/-- The iteration order of `for priority in TaskPriority`. -/
def allPriorities : List TaskPriority := [.low, .medium, .high, .urgent]

/-- The result shape of TaskService.get_task_statistics. -/
structure TaskStatistics where
  total_tasks : Nat
  status_breakdown : List (TaskStatus × Nat)
  priority_breakdown : List (TaskPriority × Nat)
deriving DecidableEq, Repr

/-- TaskService.get_task_statistics: the total row count plus one count
query per status value and one per priority value, keyed in enum order. -/
def get_task_statistics (store : List TaskRecord) : TaskStatistics :=
  { total_tasks := store.length
    status_breakdown :=
      allStatuses.map (fun s => (s, (store.filter (fun t => t.status == s)).length))
    priority_breakdown :=
      allPriorities.map (fun p => (p, (store.filter (fun t => t.priority == p)).length)) }

theorem length_sortTasks (sort_by : Option SortField) (sort_order : Option SortOrder)
    (l : List TaskRecord) : (sortTasks sort_by sort_order l).length = l.length := by
  unfold sortTasks
  cases sort_by with
  | none => simp [List.length_insertionSort]
  | some f =>
    by_cases h : sort_order = some SortOrder.desc <;>
      simp [h, List.length_insertionSort]

theorem mem_sortTasks {t : TaskRecord} (sort_by : Option SortField)
    (sort_order : Option SortOrder) (l : List TaskRecord) :
    t ∈ sortTasks sort_by sort_order l ↔ t ∈ l := by
  unfold sortTasks
  cases sort_by with
  | none => simp
  | some f =>
    by_cases h : sort_order = some SortOrder.desc <;> simp [h]

/-- C9: the statistics result counts every stored task, always carries all
four status buckets and all four priority buckets in enum order (zero
buckets included), each with the count of matching tasks; the empty store
yields zero everywhere. -/
theorem c9_statistics_all_buckets (store : List TaskRecord) :
    (get_task_statistics store).total_tasks = store.length ∧
    (get_task_statistics store).status_breakdown.map Prod.fst = allStatuses ∧
    (get_task_statistics store).priority_breakdown.map Prod.fst = allPriorities ∧
    (∀ s : TaskStatus, (get_task_statistics store).status_breakdown.lookup s =
      some ((store.filter (fun t => t.status == s)).length)) ∧
    (∀ p : TaskPriority, (get_task_statistics store).priority_breakdown.lookup p =
      some ((store.filter (fun t => t.priority == p)).length)) ∧
    get_task_statistics [] =
      { total_tasks := 0
        status_breakdown := [(.pending, 0), (.in_progress, 0), (.completed, 0), (.cancelled, 0)]
        priority_breakdown := [(.low, 0), (.medium, 0), (.high, 0), (.urgent, 0)] } := by
  refine ⟨rfl, by simp [get_task_statistics, allStatuses],
    by simp [get_task_statistics, allPriorities], ?_, ?_, by decide⟩
  · intro s
    cases s <;> rfl
  · intro p
    cases p <;> rfl

theorem get_tasks_page_length_le (store : List TaskRecord) (skip limit : Nat)
    (status : Option TaskStatus) (priority : Option TaskPriority)
    (assigned_to : Option String) (search : Option String)
    (sort_by : Option SortField) (sort_order : Option SortOrder) :
    (get_tasks store skip limit status priority assigned_to search sort_by sort_order).1.length
      ≤ limit := by
  simp only [get_tasks]
  exact List.length_take_le _ _

/-- A minimal concrete row used to build witness stores. -/
def demoTask (i : Nat) (p : TaskPriority) (s : TaskStatus) : TaskRecord :=
  { id := i, title := "task", description := none, status := s, priority := p,
    created_at := i, updated_at := none, due_date := none, assigned_to := none }

/-- Five stored tasks, all matching an unfiltered query. -/
def demoStore5 : List TaskRecord :=
  [demoTask 1 .low .pending, demoTask 2 .medium .pending, demoTask 3 .high .pending,
   demoTask 4 .urgent .pending, demoTask 5 .low .pending]

/-- C3: the reported total is the number of records matching the filters
and search with pagination ignored; the returned page is the filtered,
sorted list with skip dropped and at most limit taken, so it never
exceeds limit, contains only matching records, and with skip=2, limit=2
over 5 matching records it has exactly 2 items while total stays 5. -/
theorem c3_total_ignores_pagination (store : List TaskRecord) (skip limit : Nat)
    (status : Option TaskStatus) (priority : Option TaskPriority)
    (assigned_to : Option String) (search : Option String)
    (sort_by : Option SortField) (sort_order : Option SortOrder) :
    (get_tasks store skip limit status priority assigned_to search sort_by sort_order).2 =
      (store.filter (taskMatches status priority assigned_to search)).length ∧
    (get_tasks store skip limit status priority assigned_to search sort_by sort_order).1 =
      ((sortTasks sort_by sort_order
        (store.filter (taskMatches status priority assigned_to search))).drop skip).take limit ∧
    (get_tasks store skip limit status priority assigned_to search sort_by sort_order).1.length
      ≤ limit ∧
    (∀ t ∈ (get_tasks store skip limit status priority assigned_to search sort_by sort_order).1,
      taskMatches status priority assigned_to search t = true) ∧
    ((store.filter (taskMatches status priority assigned_to search)).length = 5 →
      skip = 2 → limit = 2 →
      (get_tasks store skip limit status priority assigned_to search sort_by sort_order).1.length = 2 ∧
      (get_tasks store skip limit status priority assigned_to search sort_by sort_order).2 = 5) := by
  refine ⟨rfl, rfl, get_tasks_page_length_le _ _ _ _ _ _ _ _ _, ?_, ?_⟩
  · intro t ht
    simp only [get_tasks] at ht
    have h1 : t ∈ sortTasks sort_by sort_order
        (store.filter (taskMatches status priority assigned_to search)) :=
      List.mem_of_mem_drop (List.mem_of_mem_take ht)
    have h2 : t ∈ store.filter (taskMatches status priority assigned_to search) :=
      (mem_sortTasks _ _ _).mp h1
    exact List.of_mem_filter h2
  · intro h5 hskip hlimit
    subst hskip
    subst hlimit
    constructor
    · simp only [get_tasks]
      rw [List.length_take, List.length_drop, length_sortTasks, h5]
      rfl
    · simp only [get_tasks]
      exact h5

/-- C3 witness: on a concrete store of five matching tasks, skip=2 and
limit=2 return exactly two items while the total remains 5. -/
theorem c3_total_ignores_pagination_witness :
    (get_tasks demoStore5 2 2 none none none none none none).1.length = 2 ∧
    (get_tasks demoStore5 2 2 none none none none none none).2 = 5 :=
  (c3_total_ignores_pagination demoStore5 2 2 none none none none none none).2.2.2.2
    (by decide) rfl rfl

theorem sort_value_eq_priorityCaseVal (p : TaskPriority) :
    p.sort_value = priorityCaseVal p := by
  cases p <;> rfl

/-- Four stored tasks whose insertion order is the reverse of the numeric
priority rank; alphabetical order of the priority strings would be
high, low, medium, urgent. -/
def demoPrioStore : List TaskRecord :=
  [demoTask 1 .urgent .pending, demoTask 2 .high .pending,
   demoTask 3 .medium .pending, demoTask 4 .low .pending]

/-- C5: sorting by priority orders the returned page by the fixed numeric
rank low=1, medium=2, high=3, urgent=4 (ascending when sort_order is not
desc, descending otherwise), and on a concrete store the ascending result
is low, medium, high, urgent — not the alphabetical order of the
strings. -/
theorem c5_priority_sort_numeric_rank (store : List TaskRecord)
    (status : Option TaskStatus) (priority : Option TaskPriority)
    (assigned_to : Option String) (search : Option String)
    (skip limit : Nat) (so : Option SortOrder) :
    (so ≠ some SortOrder.desc →
      List.Sorted (fun a b : TaskRecord => a.priority.sort_value ≤ b.priority.sort_value)
        (get_tasks store skip limit status priority assigned_to search
          (some SortField.priority) so).1) ∧
    (so = some SortOrder.desc →
      List.Sorted (fun a b : TaskRecord => b.priority.sort_value ≤ a.priority.sort_value)
        (get_tasks store skip limit status priority assigned_to search
          (some SortField.priority) so).1) ∧
    (get_tasks demoPrioStore 0 100 none none none none
        (some SortField.priority) (some SortOrder.asc)).1.map (fun t => t.priority) =
      [.low, .medium, .high, .urgent] := by
  have hsub : ∀ l : List TaskRecord, List.Sublist ((l.drop skip).take limit) l :=
    fun l => ((l.drop skip).take_sublist limit).trans (l.drop_sublist skip)
  refine ⟨?_, ?_, by decide⟩
  · intro hne
    have heq : (get_tasks store skip limit status priority assigned_to search
        (some SortField.priority) so).1 =
        ((List.insertionSort (fieldLe .priority)
          (store.filter (taskMatches status priority assigned_to search))).drop skip).take limit := by
      simp [get_tasks, sortTasks, if_neg hne]
    rw [heq]
    have hs : List.Sorted (fieldLe .priority)
        (List.insertionSort (fieldLe .priority)
          (store.filter (taskMatches status priority assigned_to search))) :=
      List.sorted_insertionSort _ _
    have hp := hs.sublist (hsub _)
    refine hp.imp ?_
    intro a b hab
    rw [sort_value_eq_priorityCaseVal, sort_value_eq_priorityCaseVal]
    exact hab
  · intro hdesc
    have heq : (get_tasks store skip limit status priority assigned_to search
        (some SortField.priority) so).1 =
        ((List.insertionSort (fieldGe .priority)
          (store.filter (taskMatches status priority assigned_to search))).drop skip).take limit := by
      simp [get_tasks, sortTasks, if_pos hdesc]
    rw [heq]
    have hs : List.Sorted (fieldGe .priority)
        (List.insertionSort (fieldGe .priority)
          (store.filter (taskMatches status priority assigned_to search))) :=
      List.sorted_insertionSort _ _
    have hp := hs.sublist (hsub _)
    refine hp.imp ?_
    intro a b hab
    rw [sort_value_eq_priorityCaseVal, sort_value_eq_priorityCaseVal]
    exact hab

/-- C5 witness: ascending priority sort of the concrete store is sorted by
numeric rank. -/
theorem c5_priority_sort_numeric_rank_witness :
    List.Sorted (fun a b : TaskRecord => a.priority.sort_value ≤ b.priority.sort_value)
      (get_tasks demoPrioStore 0 100 none none none none
        (some SortField.priority) (some SortOrder.asc)).1 :=
  (c5_priority_sort_numeric_rank demoPrioStore none none none none 0 100
    (some SortOrder.asc)).1 (by decide)

/-- C8: whenever the list endpoint accepts a request, the query parameters
satisfied skip ≥ 0 and 1 ≤ limit ≤ max_page_size, and the returned page
holds at most max_page_size = 1000 items. -/
theorem c8_pagination_bounds (store : List TaskRecord) (skip limit : Int)
    (status : Option TaskStatus) (priority : Option TaskPriority)
    (assigned_to : Option String) (search : Option String)
    (sort_by : Option SortField) (sort_order : Option SortOrder)
    (result : List TaskRecord × Nat)
    (h : controller_get_tasks store skip limit status priority assigned_to search
          sort_by sort_order = Except.ok result) :
    0 ≤ skip ∧ 1 ≤ limit ∧ limit ≤ (settings_max_page_size : Int) ∧
      result.1.length ≤ settings_max_page_size ∧ settings_max_page_size = 1000 := by
  unfold controller_get_tasks at h
  by_cases h0 : skip < 0
  · rw [if_pos h0] at h
    exact absurd h (by simp)
  rw [if_neg h0] at h
  by_cases h1 : limit < 1
  · rw [if_pos h1] at h
    exact absurd h (by simp)
  rw [if_neg h1] at h
  by_cases h2 : limit > (settings_max_page_size : Int)
  · rw [if_pos h2] at h
    exact absurd h (by simp)
  rw [if_neg h2] at h
  have hres : result = get_tasks store skip.toNat limit.toNat status priority
      assigned_to search sort_by sort_order := by
    cases h
    rfl
  refine ⟨by omega, by omega, by omega, ?_, rfl⟩
  have hlen := get_tasks_page_length_le store skip.toNat limit.toNat status priority
      assigned_to search sort_by sort_order
  rw [hres]
  calc (get_tasks store skip.toNat limit.toNat status priority
          assigned_to search sort_by sort_order).1.length
      ≤ limit.toNat := hlen
    _ ≤ settings_max_page_size := by
        simp only [settings_max_page_size] at h2 ⊢
        omega

/-- C8 witness: a concrete accepted request (skip=0, limit=100) satisfies
the bounds and returns at most 1000 items. -/
theorem c8_pagination_bounds_witness :
    (0 : Int) ≤ 0 ∧ (1 : Int) ≤ 100 ∧ (100 : Int) ≤ (settings_max_page_size : Int) ∧
    (get_tasks demoStore5 (Int.toNat 0) (Int.toNat 100)
        none none none none none none).1.length ≤ settings_max_page_size ∧
    settings_max_page_size = 1000 :=
  c8_pagination_bounds demoStore5 0 100 none none none none none none
    (get_tasks demoStore5 (Int.toNat 0) (Int.toNat 100) none none none none none none) rfl

/-- C10: create_task runs no status validation and no transition check:
whatever status the payload carries (completed and cancelled included) is
persisted verbatim, the new row is appended with updated_at = None,
created_at = now, the next id, and the validated values of the remaining
fields. -/
theorem c10_create_status_verbatim (store : List TaskRecord) (task_data : TaskCreate)
    (now : Nat) (title : String) (desc asg : Option String) (due : Option Nat)
    (ht : validate_title task_data.title = Except.ok title)
    (hd : validate_description task_data.description = Except.ok desc)
    (hdd : validate_due_date task_data.due_date now = Except.ok due)
    (ha : validate_assigned_to task_data.assigned_to = Except.ok asg) :
    ∃ t : TaskRecord,
      create_task store task_data now = Except.ok (store ++ [t], t) ∧
      t.status = task_data.status ∧
      t.updated_at = none ∧
      t.title = title ∧
      t.description = desc ∧
      t.priority = task_data.priority ∧
      t.due_date = due ∧
      t.assigned_to = asg ∧
      t.created_at = now ∧
      t.id = nextId store := by
  refine ⟨{ id := nextId store, title := title, description := desc,
            status := task_data.status, priority := task_data.priority,
            created_at := now, updated_at := none, due_date := due,
            assigned_to := asg }, ?_, rfl, rfl, rfl, rfl, rfl, rfl, rfl, rfl, rfl⟩
  unfold create_task
  rw [ht, hd, hdd, ha]
  rfl

/-- A concrete create payload that starts life directly in the completed
status. -/
def demoCreate : TaskCreate :=
  { title := "A", description := some "d", status := .completed,
    priority := .low, due_date := some 100, assigned_to := some "Bob" }

/-- C10 witness: creating with status completed persists that status
verbatim, with updated_at = None. -/
theorem c10_create_status_verbatim_witness :
    ∃ t : TaskRecord,
      create_task [] demoCreate 10 = Except.ok ([] ++ [t], t) ∧
      t.status = demoCreate.status ∧
      t.updated_at = none ∧
      t.title = "A" ∧
      t.description = some "d" ∧
      t.priority = demoCreate.priority ∧
      t.due_date = some 100 ∧
      t.assigned_to = some "Bob" ∧
      t.created_at = 10 ∧
      t.id = nextId [] :=
  c10_create_status_verbatim [] demoCreate 10 "A" (some "d") (some "Bob") (some 100)
    (by decide) (by decide) (by decide) (by decide)

theorem self_transition_false (s : TaskStatus) :
    validate_status_transition s s = false := by
  cases s <;> decide

/-- C4: on a single update whose payload contains a status, a transition
the table disallows (the current status itself included) aborts the
operation with InvalidTransition and leaves the store unchanged, while an
allowed transition applies every present validated field and stamps
updated_at = now. -/
theorem c4_update_transition_atomic (store : List TaskRecord) (task_id : Nat)
    (u : TaskUpdate) (now : Nat) (db_task : TaskRecord) (v : TaskUpdate)
    (new_status : TaskStatus)
    (hfind : findTask store task_id = some db_task)
    (hval : validateUpdateData u now = Except.ok v)
    (hst : v.status = some new_status) :
    (validate_status_transition db_task.status new_status = false →
      update_task store task_id u now =
        Except.error (.invalidTransition db_task.status new_status none) ∧
      runUpdateTask store task_id u now = store) ∧
    (new_status = db_task.status →
      update_task store task_id u now =
        Except.error (.invalidTransition db_task.status new_status none) ∧
      runUpdateTask store task_id u now = store) ∧
    (validate_status_transition db_task.status new_status = true →
      update_task store task_id u now =
        Except.ok (store.map (fun x => if x.id == task_id then applyUpdate db_task v now else x),
                   applyUpdate db_task v now) ∧
      (applyUpdate db_task v now).updated_at = some now ∧
      (applyUpdate db_task v now).status = new_status ∧
      (∀ x, v.title = some x → (applyUpdate db_task v now).title = x) ∧
      (∀ x, v.description = some x → (applyUpdate db_task v now).description = x) ∧
      (∀ x, v.priority = some x → (applyUpdate db_task v now).priority = x) ∧
      (∀ x, v.due_date = some x → (applyUpdate db_task v now).due_date = x) ∧
      (∀ x, v.assigned_to = some x → (applyUpdate db_task v now).assigned_to = x)) := by
  have hrun : ∀ r, update_task store task_id u now = r →
      runUpdateTask store task_id u now =
        (match r with | .ok (s, _) => s | .error _ => store) := by
    intro r hr
    unfold runUpdateTask
    rw [hr]
  have hbody : update_task store task_id u now =
      (match v.status with
        | some ns =>
          if validate_status_transition db_task.status ns then
            Except.ok (store.map (fun x => if x.id == task_id then applyUpdate db_task v now else x),
                       applyUpdate db_task v now)
          else
            Except.error (.invalidTransition db_task.status ns none)
        | none =>
          Except.ok (store.map (fun x => if x.id == task_id then applyUpdate db_task v now else x),
                     applyUpdate db_task v now)) := by
    unfold update_task
    rw [hfind, hval]
    rfl
  rw [hst] at hbody
  have hbody2 : update_task store task_id u now =
      (if validate_status_transition db_task.status new_status then
        Except.ok (store.map (fun x => if x.id == task_id then applyUpdate db_task v now else x),
                   applyUpdate db_task v now)
      else
        Except.error (.invalidTransition db_task.status new_status none)) := hbody
  refine ⟨?_, ?_, ?_⟩
  · intro hfalse
    have herr : update_task store task_id u now =
        Except.error (.invalidTransition db_task.status new_status none) := by
      rw [hbody2, if_neg (by simp [hfalse])]
    exact ⟨herr, hrun _ herr⟩
  · intro hself
    have hfalse : validate_status_transition db_task.status new_status = false := by
      rw [hself]
      exact self_transition_false db_task.status
    have herr : update_task store task_id u now =
        Except.error (.invalidTransition db_task.status new_status none) := by
      rw [hbody2, if_neg (by simp [hfalse])]
    exact ⟨herr, hrun _ herr⟩
  · intro htrue
    have hok : update_task store task_id u now =
        Except.ok (store.map (fun x => if x.id == task_id then applyUpdate db_task v now else x),
                   applyUpdate db_task v now) := by
      rw [hbody2, if_pos (by simp [htrue])]
    exact ⟨hok, rfl, by simp [applyUpdate, hst],
      fun x hx => by simp [applyUpdate, hx],
      fun x hx => by simp [applyUpdate, hx],
      fun x hx => by simp [applyUpdate, hx],
      fun x hx => by simp [applyUpdate, hx],
      fun x hx => by simp [applyUpdate, hx]⟩

/-- An update payload that only sets status := cancelled. -/
def demoUpdCancel : TaskUpdate := { status := some .cancelled }

/-- C4 witness: updating a completed task to cancelled (a transition not in
the table) fails with InvalidTransition and leaves the store unchanged. -/
theorem c4_update_transition_atomic_witness :
    update_task [demoTask 1 .low .completed] 1 demoUpdCancel 7 =
      Except.error (.invalidTransition .completed .cancelled none) ∧
    runUpdateTask [demoTask 1 .low .completed] 1 demoUpdCancel 7 =
      [demoTask 1 .low .completed] :=
  (c4_update_transition_atomic [demoTask 1 .low .completed] 1 demoUpdCancel 7
    (demoTask 1 .low .completed) demoUpdCancel .cancelled
    (by decide) (by decide) rfl).1 (by decide)

/-- C2: bulk update is all-or-nothing: any missing id makes the whole
operation fail with NotFound listing exactly the missing ids, and — when
every id exists, the payload carries a status and its validators pass —
any target whose current status disallows the transition makes the whole
operation fail with InvalidTransition naming that task; in both failure
cases the committed store is unchanged. -/
theorem c2_bulk_update_all_or_nothing (store : List TaskRecord) (task_ids : List Nat)
    (u : TaskUpdate) (now : Nat) :
    (bulkMissing store task_ids ≠ [] →
      bulk_update_tasks store task_ids u now =
        Except.error (.notFound (bulkMissing store task_ids)) ∧
      runBulkUpdate store task_ids u now = store) ∧
    (∀ (v : TaskUpdate) (new_status : TaskStatus),
      bulkMissing store task_ids = [] →
      u.isEmpty = false →
      validateUpdateData u now = Except.ok v →
      v.status = some new_status →
      (∃ t ∈ bulkExisting store task_ids,
        validate_status_transition t.status new_status = false) →
      ∃ t₀ ∈ bulkExisting store task_ids,
        validate_status_transition t₀.status new_status = false ∧
        bulk_update_tasks store task_ids u now =
          Except.error (.invalidTransition t₀.status new_status (some t₀.id)) ∧
        runBulkUpdate store task_ids u now = store) := by
  have hrun : ∀ r, bulk_update_tasks store task_ids u now = r →
      runBulkUpdate store task_ids u now =
        (match r with | .ok (s, _, _) => s | .error _ => store) := by
    intro r hr
    unfold runBulkUpdate
    rw [hr]
  constructor
  · intro hmiss
    have herr : bulk_update_tasks store task_ids u now =
        Except.error (.notFound (bulkMissing store task_ids)) := by
      unfold bulk_update_tasks
      rw [if_pos]
      simp [List.isEmpty_iff, hmiss]
    exact ⟨herr, hrun _ herr⟩
  · intro v new_status hmiss hempty hval hst hex
    have hfindsome : ∃ t₀, (bulkExisting store task_ids).find?
        (fun t => !validate_status_transition t.status new_status) = some t₀ := by
      cases hfind : (bulkExisting store task_ids).find?
          (fun t => !validate_status_transition t.status new_status) with
      | some t₀ => exact ⟨t₀, rfl⟩
      | none =>
        rcases hex with ⟨t, htmem, htfalse⟩
        have hnone := List.find?_eq_none.mp hfind t htmem
        simp [htfalse] at hnone
    rcases hfindsome with ⟨t₀, hfind⟩
    have herr : bulk_update_tasks store task_ids u now =
        Except.error (.invalidTransition t₀.status new_status (some t₀.id)) := by
      unfold bulk_update_tasks
      rw [if_neg (by simp [hmiss]), if_neg (by simp [hempty]), hval]
      have hbody :
          (do
            let v2 ← Except.ok (ε := SvcError) v
            match v2.status with
            | some ns =>
              match (bulkExisting store task_ids).find?
                  (fun t : TaskRecord => !validate_status_transition t.status ns) with
              | some t => Except.error (.invalidTransition t.status ns (some t.id))
              | none =>
                pure (store.map (fun t : TaskRecord => if task_ids.contains t.id then applyUpdate t v2 now else t),
                      (bulkExisting store task_ids).length,
                      (bulkExisting store task_ids).map (fun t : TaskRecord => t.id))
            | none =>
              pure (store.map (fun t : TaskRecord => if task_ids.contains t.id then applyUpdate t v2 now else t),
                    (bulkExisting store task_ids).length,
                    (bulkExisting store task_ids).map (fun t : TaskRecord => t.id))) =
          (match v.status with
            | some ns =>
              match (bulkExisting store task_ids).find?
                  (fun t : TaskRecord => !validate_status_transition t.status ns) with
              | some t =>
                Except.error (ε := SvcError) (.invalidTransition t.status ns (some t.id))
              | none =>
                pure (store.map (fun t : TaskRecord => if task_ids.contains t.id then applyUpdate t v now else t),
                      (bulkExisting store task_ids).length,
                      (bulkExisting store task_ids).map (fun t : TaskRecord => t.id))
            | none =>
              pure (store.map (fun t : TaskRecord => if task_ids.contains t.id then applyUpdate t v now else t),
                    (bulkExisting store task_ids).length,
                    (bulkExisting store task_ids).map (fun t : TaskRecord => t.id))) := rfl
      rw [hbody, hst]
      show (match List.find? (fun t : TaskRecord => !validate_status_transition t.status new_status)
              (bulkExisting store task_ids) with
            | some t => Except.error (SvcError.invalidTransition t.status new_status (some t.id))
            | none =>
              pure (store.map (fun t : TaskRecord =>
                      if task_ids.contains t.id then applyUpdate t v now else t),
                    (bulkExisting store task_ids).length,
                    (bulkExisting store task_ids).map (fun t : TaskRecord => t.id))) =
          Except.error (SvcError.invalidTransition t₀.status new_status (some t₀.id))
      rw [hfind]
    have hmem : t₀ ∈ bulkExisting store task_ids := List.mem_of_find?_eq_some hfind
    have hprop := List.find?_some hfind
    exact ⟨t₀, hmem, by simpa using hprop, herr, hrun _ herr⟩

/-- Three stored tasks with ids 1, 2, 3. -/
def demoStore3 : List TaskRecord :=
  [demoTask 1 .low .pending, demoTask 2 .medium .pending, demoTask 3 .high .completed]

/-- C2 witness: a bulk update naming one missing id among three requested
fails entirely with NotFound listing the missing id, and no task is
changed. -/
theorem c2_bulk_update_all_or_nothing_witness :
    bulk_update_tasks demoStore3 [1, 2, 4] demoUpdCancel 9 =
      Except.error (.notFound [4]) ∧
    runBulkUpdate demoStore3 [1, 2, 4] demoUpdCancel 9 = demoStore3 := by
  have h := (c2_bulk_update_all_or_nothing demoStore3 [1, 2, 4] demoUpdCancel 9).1 (by decide)
  exact ⟨h.1, h.2⟩

/-- C6: bulk delete tolerates missing ids: it fails with NotFound exactly
when no requested id exists in the store, and otherwise removes precisely
the rows whose id was requested, returning their count and their ids. -/
theorem c6_bulk_delete_lenient (store : List TaskRecord) (task_ids : List Nat) :
    (bulkExisting store task_ids = [] ↔ ∀ t ∈ store, t.id ∉ task_ids) ∧
    (bulkExisting store task_ids = [] →
      bulk_delete_tasks store task_ids = Except.error (.notFound [])) ∧
    (bulkExisting store task_ids ≠ [] →
      bulk_delete_tasks store task_ids =
        Except.ok (store.filter (fun t => !task_ids.contains t.id),
                   (bulkExisting store task_ids).length,
                   (bulkExisting store task_ids).map (fun t => t.id))) := by
  refine ⟨?_, ?_, ?_⟩
  · unfold bulkExisting
    rw [List.filter_eq_nil_iff]
    constructor
    · intro h t ht hmem
      exact absurd ((List.elem_iff).mpr hmem) (by simpa using h t ht)
    · intro h t ht
      have := h t ht
      simp only [List.contains]
      intro hc
      exact this ((List.elem_iff).mp hc)
  · intro h
    unfold bulk_delete_tasks
    rw [if_pos (by simp [h])]
  · intro h
    unfold bulk_delete_tasks
    rw [if_neg (by simp [h])]
    have hfil : store.filter
        (fun t => !((bulkExisting store task_ids).map (fun x => x.id)).contains t.id) =
        store.filter (fun t => !task_ids.contains t.id) := by
      apply List.filter_congr
      intro t ht
      by_cases hc : t.id ∈ task_ids
      · have h1 : t ∈ bulkExisting store task_ids := by
          unfold bulkExisting
          rw [List.mem_filter]
          exact ⟨ht, by simpa using hc⟩
        have h2 : t.id ∈ (bulkExisting store task_ids).map (fun x => x.id) :=
          List.mem_map_of_mem _ h1
        simp [hc, h2]
      · have h2 : t.id ∉ (bulkExisting store task_ids).map (fun x => x.id) := by
          intro hmem
          rcases List.mem_map.mp hmem with ⟨x, hx, hxid⟩
          have hxids : x.id ∈ task_ids := by
            have := (List.mem_filter.mp hx).2
            simpa using this
          rw [hxid] at hxids
          exact hc hxids
        simp [hc, h2]
    rw [hfil]

/-- C6 witness: deleting ids [1, 2, 99] from a store holding ids 1, 2, 3
removes tasks 1 and 2, reports affected_count = 2, and succeeds despite
the missing id 99. -/
theorem c6_bulk_delete_lenient_witness :
    bulk_delete_tasks demoStore3 [1, 2, 99] =
      Except.ok ([demoTask 3 .high .completed], 2, [1, 2]) := by
  have h := (c6_bulk_delete_lenient demoStore3 [1, 2, 99]).2.2 (by decide)
  rw [h]
  rfl
